import Mathlib

/-!
# slack-mcp-go: the tool handlers of `main.go`

A shallow embedding of `main.go`.  Go's multiple return values are tuples, a
possibly-nil `error` or pointer result is an `Option`, and the Slack backend
behind the `SlackAPI` interface is a record of state-passing functions over an
arbitrary backend state `σ`, so that calls made by a handler can be observed.

The types and functions of the libraries `slack-go/slack`, `mcp-go/mcp` and
`encoding/json` are not part of `main.go`; what the handlers use of them is
modelled below and marked as library code.
-/

set_option autoImplicit false
set_option linter.unusedVariables false

namespace SlackMcp

/-! ## Untyped argument values -/

/-- Go value of static type `any` inside a decoded argument map.  The payload
of a number (a `float64` in Go) plays no part in `main.go` and is kept as an
integer. -/
inductive Value where
  | null
  | bool (b : Bool)
  | number (n : Int)
  | str (s : String)
  | list (xs : List Value)
  | object (kv : List (String × Value))

/-- Go `map[string]any` as the list of its bindings.  A Go map binds a key at
most once; should a list repeat a key, its first binding is the one read. -/
abbrev Args := List (String × Value)

/-- Go map index `args[name]`: `none` is the nil interface value that an
absent key yields. -/
def Args.index (args : Args) (name : String) : Option Value :=
  List.lookup name args

/-- Go type assertion `x.(string)` in its two-result form: the value and the
`ok` flag.  It never panics. -/
def typeAssertString : Option Value → String × Bool
  | some (Value.str s) => (s, true)
  | _ => ("", false)

/-! ## Library code: `mcp-go/mcp` -/

/-- Library type `mcp.TextContent`. -/
structure TextContent where
  type : String
  text : String
  deriving DecidableEq, Repr

/-- Library interface `mcp.Content`; `main.go` only ever builds text content. -/
inductive Content where
  | text (c : TextContent)
  deriving DecidableEq, Repr

/-- Library type `mcp.CallToolResult`. -/
structure CallToolResult where
  content : List Content
  isError : Bool := false
  deriving DecidableEq, Repr

/-- Library function `mcp.NewTextContent`. -/
def NewTextContent (text : String) : Content :=
  Content.text { type := "text", text := text }

/-- Library function `mcp.NewToolResultText`. -/
def NewToolResultText (text : String) : CallToolResult :=
  { content := [NewTextContent text] }

/-- Library type `mcp.CallToolRequest`: a tool name and its argument map.  A
request whose arguments are not a map is one with the empty map, since
`GetArguments` then returns a nil map and indexing a nil map finds nothing. -/
structure CallToolRequest where
  name : String
  arguments : Args

/-- Library method `request.GetArguments()`. -/
def CallToolRequest.GetArguments (request : CallToolRequest) : Args :=
  request.arguments

/-! ## Library code: `slack-go/slack` -/

/-- Library type `slack.ItemRef`. -/
structure ItemRef where
  Channel : String := ""
  Timestamp : String := ""
  File : String := ""
  Comment : String := ""
  deriving DecidableEq, Repr

/-- Library function `slack.NewRefToMessage`. -/
def NewRefToMessage (channel timestamp : String) : ItemRef :=
  { Channel := channel, Timestamp := timestamp }

/-- Library type `slack.MsgOption`, restricted to the two options `main.go`
builds: `slack.MsgOptionText(text, escape)` and `slack.MsgOptionTS(ts)`. -/
inductive MsgOption where
  | MsgOptionText (text : String) (escape : Bool)
  | MsgOptionTS (ts : String)
  deriving DecidableEq, Repr

/-- Library type `slack.GetConversationHistoryParameters`; fields a struct
literal leaves out hold their zero value. -/
structure GetConversationHistoryParameters where
  ChannelID : String := ""
  Cursor : String := ""
  Inclusive : Bool := false
  Latest : String := ""
  Limit : Int := 0
  Oldest : String := ""
  IncludeAllMetadata : Bool := false
  deriving DecidableEq, Repr

/-- Library type `slack.GetConversationRepliesParameters`. -/
structure GetConversationRepliesParameters where
  ChannelID : String := ""
  Timestamp : String := ""
  Cursor : String := ""
  Inclusive : Bool := false
  Latest : String := ""
  Limit : Int := 0
  Oldest : String := ""
  IncludeAllMetadata : Bool := false
  deriving DecidableEq, Repr

/-- Library type `slack.GetUserProfileParameters`. -/
structure GetUserProfileParameters where
  UserID : String := ""
  IncludeLabels : Bool := false
  deriving DecidableEq, Repr

/-- Library type `slack.GetConversationsParameters`. -/
structure GetConversationsParameters where
  Cursor : String := ""
  ExcludeArchived : Bool := false
  Limit : Int := 0
  Types : List String := []
  TeamID : String := ""
  deriving DecidableEq, Repr

/-- Types that `main.go` passes through without looking inside them: Go's
`error`, `context.Context`, and the results of the Slack operations
(`*slack.GetConversationHistoryResponse`, `[]slack.Message`,
`*slack.UserProfile`, `[]slack.User`, `[]slack.Channel`). -/
structure SlackTypes where
  Error : Type
  Context : Type
  HistoryResponse : Type
  Messages : Type
  UserProfile : Type
  Users : Type
  Channels : Type

/-- Interface `SlackAPI` of `main.go`, one field per method.  Each method
takes the backend state and returns the Go result tuple with the next state;
the `error` result is `none` for nil. -/
structure SlackAPI (T : SlackTypes) (σ : Type) where
  AddReaction : String → ItemRef → σ → Option T.Error × σ
  GetConversationHistory :
    GetConversationHistoryParameters → σ → (T.HistoryResponse × Option T.Error) × σ
  GetConversationReplies :
    GetConversationRepliesParameters → σ → (T.Messages × Bool × String × Option T.Error) × σ
  GetUserProfile : GetUserProfileParameters → σ → (T.UserProfile × Option T.Error) × σ
  GetUsers : T.Context → σ → (T.Users × Option T.Error) × σ
  GetConversations :
    GetConversationsParameters → σ → (T.Channels × String × Option T.Error) × σ
  PostMessage : String → List MsgOption → σ → (String × String × Option T.Error) × σ

/-- Struct `BaseHandler` of `main.go`. -/
structure BaseHandler (T : SlackTypes) (σ : Type) where
  api : SlackAPI T σ

/-! ## Library code: `encoding/json` -/

/-- Library function `json.Marshal` at the five pass-through types, a
parameter of the development: the bytes (as a string) and the error. -/
structure JsonMarshal (T : SlackTypes) where
  historyResponse : T.HistoryResponse → String × Option T.Error
  messages : T.Messages → String × Option T.Error
  userProfile : T.UserProfile → String × Option T.Error
  users : T.Users → String × Option T.Error
  channels : T.Channels → String × Option T.Error

/-- Hexadecimal digit table `hex` of `encoding/json`. -/
def hex (n : Nat) : Char :=
  ['0', '1', '2', '3', '4', '5', '6', '7', '8', '9', 'a', 'b', 'c', 'd', 'e', 'f'].getD n '0'

/-- The double quote character. -/
def dquote : Char := Char.ofNat 0x22

/-- The backslash character. -/
def backslash : Char := Char.ofNat 0x5c

/-- Table `htmlSafeSet` of `encoding/json`: the ASCII characters that need no
escape when HTML escaping is on (the default of `json.Marshal`). -/
def htmlSafeSet (c : Char) : Bool :=
  decide (0x20 ≤ c.toNat) && decide (c.toNat < 0x80) &&
    !(c == dquote || c == '&' || c == '<' || c == '>' || c == backslash)

/-- One step of `appendString` of `encoding/json` (HTML escaping on): the
encoding of one character of a valid UTF-8 string. -/
def appendRune (c : Char) : List Char :=
  if c.toNat < 0x80 then
    if htmlSafeSet c then [c]
    else if c = backslash ∨ c = dquote then [backslash, c]
    else if c = Char.ofNat 0x08 then [backslash, 'b']
    else if c = Char.ofNat 0x0c then [backslash, 'f']
    else if c = Char.ofNat 0x0a then [backslash, 'n']
    else if c = Char.ofNat 0x0d then [backslash, 'r']
    else if c = Char.ofNat 0x09 then [backslash, 't']
    else [backslash, 'u', '0', '0', hex (c.toNat / 16), hex (c.toNat % 16)]
  else if c = Char.ofNat 0x2028 ∨ c = Char.ofNat 0x2029 then
    [backslash, 'u', '2', '0', '2', hex (c.toNat % 16)]
  else [c]

/-- Function `appendString` of `encoding/json` on a valid UTF-8 string: the
quoted JSON string. -/
def appendString (src : String) : List Char :=
  dquote :: (src.data.flatMap appendRune ++ [dquote])

/-- Body of `mapEncoder.encode` of `encoding/json` on sorted entries: the
members `"key":"value"` separated by commas. -/
def encodeMembers : List (String × String) → List Char
  | [] => []
  | [kv] => appendString kv.1 ++ ':' :: appendString kv.2
  | kv :: rest => appendString kv.1 ++ ':' :: appendString kv.2 ++ ',' :: encodeMembers rest

/-- Library function `json.Marshal` at a non-nil `map[string]string`: keys in
sorted order, every key and value a quoted string.  It has no failing case. -/
def marshalStringMap {ε : Type} (m : List (String × String)) : String × Option ε :=
  (String.mk ('\x7b' :: (encodeMembers (m.insertionSort fun a b => ¬ b.1.data < a.1.data) ++ ['\x7d'])),
    none)

/-! ## The eight handlers of `main.go`

Every `Call` returns the Go pair `(*mcp.CallToolResult, error)` and the
backend state after the call. -/

section Handlers

variable {T : SlackTypes} {σ : Type}

/-- Method `AddReactionHandler.Call` (`main.go`, lines 50-60). -/
def AddReactionHandler.Call (h : BaseHandler T σ) (ctx : T.Context)
    (request : CallToolRequest) (s : σ) : (Option CallToolResult × Option T.Error) × σ :=
  let args := request.GetArguments
  let channel := (typeAssertString (args.index "channel")).1
  let timestamp := (typeAssertString (args.index "timestamp")).1
  let reaction := (typeAssertString (args.index "reaction")).1
  let r := h.api.AddReaction reaction (NewRefToMessage channel timestamp) s
  match r.1 with
  | some err => ((none, some err), r.2)
  | none => ((some (NewToolResultText "success"), none), r.2)

/-- Method `GetChannelHistoryHandler.Call` (`main.go`, lines 67-83). -/
def GetChannelHistoryHandler.Call (json : JsonMarshal T) (h : BaseHandler T σ) (ctx : T.Context)
    (request : CallToolRequest) (s : σ) : (Option CallToolResult × Option T.Error) × σ :=
  let args := request.GetArguments
  let channel := (typeAssertString (args.index "channel")).1
  let r := h.api.GetConversationHistory { ChannelID := channel } s
  match r.1.2 with
  | some err => ((none, some err), r.2)
  | none =>
    let res := json.historyResponse r.1.1
    match res.2 with
    | some err => ((none, some err), r.2)
    | none => ((some { content := [NewTextContent res.1] }, none), r.2)

/-- Method `GetThreadRepliesHandler.Call` (`main.go`, lines 90-107). -/
def GetThreadRepliesHandler.Call (json : JsonMarshal T) (h : BaseHandler T σ) (ctx : T.Context)
    (request : CallToolRequest) (s : σ) : (Option CallToolResult × Option T.Error) × σ :=
  let args := request.GetArguments
  let channel := (typeAssertString (args.index "channel")).1
  let timestamp := (typeAssertString (args.index "timestamp")).1
  let r := h.api.GetConversationReplies { ChannelID := channel, Timestamp := timestamp } s
  match r.1.2.2.2 with
  | some err => ((none, some err), r.2)
  | none =>
    let res := json.messages r.1.1
    match res.2 with
    | some err => ((none, some err), r.2)
    | none => ((some { content := [NewTextContent res.1] }, none), r.2)

/-- Method `GetUserProfileHandler.Call` (`main.go`, lines 114-130). -/
def GetUserProfileHandler.Call (json : JsonMarshal T) (h : BaseHandler T σ) (ctx : T.Context)
    (request : CallToolRequest) (s : σ) : (Option CallToolResult × Option T.Error) × σ :=
  let args := request.GetArguments
  let userID := (typeAssertString (args.index "user_id")).1
  let r := h.api.GetUserProfile { UserID := userID } s
  match r.1.2 with
  | some err => ((none, some err), r.2)
  | none =>
    let res := json.userProfile r.1.1
    match res.2 with
    | some err => ((none, some err), r.2)
    | none => ((some { content := [NewTextContent res.1] }, none), r.2)

/-- Method `GetUsersHandler.Call` (`main.go`, lines 137-151). -/
def GetUsersHandler.Call (json : JsonMarshal T) (h : BaseHandler T σ) (ctx : T.Context)
    (request : CallToolRequest) (s : σ) : (Option CallToolResult × Option T.Error) × σ :=
  let r := h.api.GetUsers ctx s
  match r.1.2 with
  | some err => ((none, some err), r.2)
  | none =>
    let res := json.users r.1.1
    match res.2 with
    | some err => ((none, some err), r.2)
    | none => ((some { content := [NewTextContent res.1] }, none), r.2)

/-- Method `ListChannelsHandler.Call` (`main.go`, lines 158-172). -/
def ListChannelsHandler.Call (json : JsonMarshal T) (h : BaseHandler T σ) (ctx : T.Context)
    (request : CallToolRequest) (s : σ) : (Option CallToolResult × Option T.Error) × σ :=
  let r := h.api.GetConversations {} s
  match r.1.2.2 with
  | some err => ((none, some err), r.2)
  | none =>
    let res := json.channels r.1.1
    match res.2 with
    | some err => ((none, some err), r.2)
    | none => ((some { content := [NewTextContent res.1] }, none), r.2)

/-- Method `PostMessageHandler.Call` (`main.go`, lines 179-196). -/
def PostMessageHandler.Call (h : BaseHandler T σ) (ctx : T.Context)
    (request : CallToolRequest) (s : σ) : (Option CallToolResult × Option T.Error) × σ :=
  let args := request.GetArguments
  let channel := (typeAssertString (args.index "channel")).1
  let text := (typeAssertString (args.index "text")).1
  let r := h.api.PostMessage channel [MsgOption.MsgOptionText text false] s
  let respMsg := r.1.1
  let timestamp := r.1.2.1
  match r.1.2.2 with
  | some err => ((none, some err), r.2)
  | none =>
    let res : String × Option T.Error :=
      marshalStringMap [("channel", respMsg), ("timestamp", timestamp)]
    match res.2 with
    | some err => ((none, some err), r.2)
    | none => ((some { content := [NewTextContent res.1] }, none), r.2)

/-- Method `ReplyToThreadHandler.Call` (`main.go`, lines 203-221). -/
def ReplyToThreadHandler.Call (h : BaseHandler T σ) (ctx : T.Context)
    (request : CallToolRequest) (s : σ) : (Option CallToolResult × Option T.Error) × σ :=
  let args := request.GetArguments
  let channel := (typeAssertString (args.index "channel")).1
  let timestamp := (typeAssertString (args.index "timestamp")).1
  let text := (typeAssertString (args.index "text")).1
  let r := h.api.PostMessage channel
    [MsgOption.MsgOptionText text false, MsgOption.MsgOptionTS timestamp] s
  let respMsg := r.1.1
  let respTimestamp := r.1.2.1
  match r.1.2.2 with
  | some err => ((none, some err), r.2)
  | none =>
    let res : String × Option T.Error :=
      marshalStringMap [("channel", respMsg), ("timestamp", respTimestamp)]
    match res.2 with
    | some err => ((none, some err), r.2)
    | none => ((some { content := [NewTextContent res.1] }, none), r.2)

end Handlers

/-! ## A backend that records the calls it receives -/

/-- One call of a `SlackAPI` method with its arguments. -/
inductive BackendCall (T : SlackTypes) where
  | AddReaction (name : String) (item : ItemRef)
  | GetConversationHistory (params : GetConversationHistoryParameters)
  | GetConversationReplies (params : GetConversationRepliesParameters)
  | GetUserProfile (params : GetUserProfileParameters)
  | GetUsers (ctx : T.Context)
  | GetConversations (params : GetConversationsParameters)
  | PostMessage (channelID : String) (options : List MsgOption)

/-- Test double over any backend `api`: every method forwards to `api` and
appends the call it received to a log kept next to the backend state. -/
def recording {T : SlackTypes} {σ : Type} (api : SlackAPI T σ) :
    SlackAPI T (σ × List (BackendCall T)) where
  AddReaction name item s :=
    let r := api.AddReaction name item s.1
    (r.1, (r.2, s.2 ++ [BackendCall.AddReaction name item]))
  GetConversationHistory params s :=
    let r := api.GetConversationHistory params s.1
    (r.1, (r.2, s.2 ++ [BackendCall.GetConversationHistory params]))
  GetConversationReplies params s :=
    let r := api.GetConversationReplies params s.1
    (r.1, (r.2, s.2 ++ [BackendCall.GetConversationReplies params]))
  GetUserProfile params s :=
    let r := api.GetUserProfile params s.1
    (r.1, (r.2, s.2 ++ [BackendCall.GetUserProfile params]))
  GetUsers ctx s :=
    let r := api.GetUsers ctx s.1
    (r.1, (r.2, s.2 ++ [BackendCall.GetUsers ctx]))
  GetConversations params s :=
    let r := api.GetConversations params s.1
    (r.1, (r.2, s.2 ++ [BackendCall.GetConversations params]))
  PostMessage channelID options s :=
    let r := api.PostMessage channelID options s.1
    (r.1, (r.2, s.2 ++ [BackendCall.PostMessage channelID options]))

/-! ## Startup: function `main`

`main` is embedded as the sequence of effects it performs on the outside
world, in order, as a function of what the outside world answers. -/

/-- Library type `mcp.PropertyOption`, restricted to the options `main` uses. -/
inductive PropertyOption where
  | Description (desc : String)
  | Required
  deriving DecidableEq, Repr

/-- Library type `mcp.ToolOption`, restricted to the options `main` uses. -/
inductive ToolOption where
  | WithDescription (description : String)
  | WithString (name : String) (opts : List PropertyOption)
  deriving DecidableEq, Repr

/-- Library type `mcp.Tool` as built by `mcp.NewTool(name, opts...)`. -/
structure Tool where
  name : String
  opts : List ToolOption
  deriving DecidableEq, Repr

/-- Library function `mcp.NewTool`. -/
def NewTool (name : String) (opts : List ToolOption) : Tool :=
  { name := name, opts := opts }

/-- Interface `ToolHandler` of `main.go`: its eight implementations. -/
inductive ToolHandler where
  | AddReactionHandler
  | GetChannelHistoryHandler
  | GetThreadRepliesHandler
  | GetUserProfileHandler
  | GetUsersHandler
  | ListChannelsHandler
  | PostMessageHandler
  | ReplyToThreadHandler
  deriving DecidableEq, Repr

/-- What the outside world answers to `main`: the error of `os.OpenFile` on
the log file (`none` when it opens), the environment variables, and the error
`server.ServeStdio` returns (`none` for nil).  Errors are given by their
`%v` text. -/
structure Env where
  openLogFile : Option String
  vars : List (String × String)
  serveResult : Option String

/-- Library function `os.Getenv`: the value of the variable, empty when the
variable is not set. -/
def Env.Getenv (env : Env) (key : String) : String :=
  (List.lookup key env.vars).getD ""

/-- One effect of `main` on the outside world.  `logPrint` is a line written
through package `log` to the log file, without the date and time that `log`
puts in front of it. -/
inductive Event where
  | stderrWrite (text : String)
  | logPrint (text : String)
  | exit (code : Nat)
  | slackNew (token : String)
  | newMCPServer (name version : String)
  | addTool (tool : Tool) (handler : ToolHandler)
  | serve
  | closeLogFile
  deriving DecidableEq, Repr

/-- Function `addTool` of `main.go` (lines 294-297). -/
def addTool (name : String) (handler : ToolHandler) (opts : List ToolOption) : Event :=
  Event.addTool (NewTool name opts) handler

/-- Function `main` of `main.go` (lines 223-292). -/
def main (env : Env) : List Event :=
  match env.openLogFile with
  | some err =>
    [Event.stderrWrite ("Fatal: could not open log file: " ++ err ++ "\n"), Event.exit 1]
  | none =>
    let slackToken := env.Getenv "SLACK_BOT_TOKEN"
    if slackToken = "" then
      [Event.stderrWrite "Error: SLACK_BOT_TOKEN environment variable not set\n",
       Event.logPrint "Error: SLACK_BOT_TOKEN environment variable not set",
       Event.exit 1]
    else
      [Event.slackNew slackToken,
       Event.newMCPServer "slack-mcp-go" "1.0.0",
       addTool "add_reaction" ToolHandler.AddReactionHandler
         [ToolOption.WithDescription "Add a reaction to a message.",
          ToolOption.WithString "channel"
            [PropertyOption.Description "Channel ID", PropertyOption.Required],
          ToolOption.WithString "timestamp"
            [PropertyOption.Description "Message timestamp", PropertyOption.Required],
          ToolOption.WithString "reaction"
            [PropertyOption.Description "Reaction name", PropertyOption.Required]],
       addTool "get_channel_history" ToolHandler.GetChannelHistoryHandler
         [ToolOption.WithDescription "Get channel history.",
          ToolOption.WithString "channel"
            [PropertyOption.Description "Channel ID", PropertyOption.Required]],
       addTool "get_thread_replies" ToolHandler.GetThreadRepliesHandler
         [ToolOption.WithDescription "Get thread replies.",
          ToolOption.WithString "channel"
            [PropertyOption.Description "Channel ID", PropertyOption.Required],
          ToolOption.WithString "timestamp"
            [PropertyOption.Description "Message timestamp", PropertyOption.Required]],
       addTool "get_user_profile" ToolHandler.GetUserProfileHandler
         [ToolOption.WithDescription "Get user profile.",
          ToolOption.WithString "user_id"
            [PropertyOption.Description "User ID", PropertyOption.Required]],
       addTool "get_users" ToolHandler.GetUsersHandler
         [ToolOption.WithDescription "Get all users."],
       addTool "list_channels" ToolHandler.ListChannelsHandler
         [ToolOption.WithDescription "List all channels."],
       addTool "post_message" ToolHandler.PostMessageHandler
         [ToolOption.WithDescription "Post a message to a channel.",
          ToolOption.WithString "channel"
            [PropertyOption.Description "Channel ID", PropertyOption.Required],
          ToolOption.WithString "text"
            [PropertyOption.Description "Message text", PropertyOption.Required]],
       addTool "reply_to_thread" ToolHandler.ReplyToThreadHandler
         [ToolOption.WithDescription "Reply to a thread.",
          ToolOption.WithString "channel"
            [PropertyOption.Description "Channel ID", PropertyOption.Required],
          ToolOption.WithString "timestamp"
            [PropertyOption.Description "Message timestamp", PropertyOption.Required],
          ToolOption.WithString "text"
            [PropertyOption.Description "Message text", PropertyOption.Required]],
       Event.serve] ++
      match env.serveResult with
      | some err => [Event.logPrint ("Server error: " ++ err), Event.exit 1]
      | none => [Event.closeLogFile, Event.exit 0]

/-- Everything the run wrote to standard error, in order. -/
def stderrOf : List Event → String
  | [] => ""
  | Event.stderrWrite text :: rest => text ++ stderrOf rest
  | _ :: rest => stderrOf rest

/-- Exit status of the run: the code of its first `exit`. -/
def exitStatusOf : List Event → Option Nat
  | [] => none
  | Event.exit code :: _ => some code
  | _ :: rest => exitStatusOf rest

/-- Whether the effect constructs the Slack client or the server, registers a
tool or serves requests. -/
def Event.startsService : Event → Bool
  | Event.slackNew _ => true
  | Event.newMCPServer _ _ => true
  | Event.addTool _ _ => true
  | Event.serve => true
  | _ => false

/-! ## Vocabulary of the statements -/

/-- Expression `args[name].(string)` with the `ok` flag dropped, as every
handler writes it on `request.GetArguments()`. -/
def stringArg (request : CallToolRequest) (name : String) : String :=
  (typeAssertString (request.GetArguments.index name)).1

/-- Text `{"channel":c,"timestamp":ts}` with `c` and `ts` encoded as JSON
strings by `appendString`. -/
def postedObject (c ts : String) : String :=
  "\x7b\"channel\":" ++ String.mk (appendString c) ++ ",\"timestamp\":" ++
    String.mk (appendString ts) ++ "\x7d"

/-- Result with exactly one content item, a text content holding `text`. -/
def textResult (text : String) : CallToolResult :=
  { content := [Content.text { type := "text", text := text }], isError := false }

/-- Characters that `appendString` copies unchanged: ASCII from space on
other than the double quote, `&`, `<`, `>` and the backslash, and everything
beyond ASCII other than U+2028 and U+2029. -/
def plainChar (c : Char) : Bool :=
  htmlSafeSet c ||
    (decide (0x80 ≤ c.toNat) && !(c == Char.ofNat 0x2028 || c == Char.ofNat 0x2029))

/-! ### A reader of JSON text

Written after the JSON grammar (RFC 8259) and not after the encoder above: it
is what a client does with the text of a result. -/

/-- JSON hexadecimal digit: its value. -/
def readHexDigit (c : Char) : Option Nat :=
  if 0x30 ≤ c.toNat ∧ c.toNat ≤ 0x39 then some (c.toNat - 0x30)
  else if 0x61 ≤ c.toNat ∧ c.toNat ≤ 0x66 then some (c.toNat - 0x61 + 10)
  else if 0x41 ≤ c.toNat ∧ c.toNat ≤ 0x46 then some (c.toNat - 0x41 + 10)
  else none

/-- JSON two-character escape: the character that the letter after the
backslash stands for. -/
def readEscape (c : Char) : Option Char :=
  if c = dquote then some dquote
  else if c = backslash then some backslash
  else if c = '/' then some '/'
  else if c = 'b' then some (Char.ofNat 0x08)
  else if c = 'f' then some (Char.ofNat 0x0c)
  else if c = 'n' then some (Char.ofNat 0x0a)
  else if c = 'r' then some (Char.ofNat 0x0d)
  else if c = 't' then some (Char.ofNat 0x09)
  else none

/-- JSON string after its opening quote: the characters it denotes and the
input left after the closing quote.  An unescaped quote ends the string, an
unescaped control character is refused, `\uXXXX` denotes the code point
`XXXX`; escapes of surrogate halves are refused rather than paired. -/
def readStringBody : List Char → Option (List Char × List Char)
  | [] => none
  | c :: rest =>
    if c = dquote then some ([], rest)
    else if c = backslash then
      match rest with
      | [] => none
      | e :: rest1 =>
        if e = 'u' then
          match rest1 with
          | h1 :: h2 :: h3 :: h4 :: rest2 =>
            match readHexDigit h1, readHexDigit h2, readHexDigit h3, readHexDigit h4 with
            | some a, some b, some c, some d =>
              let n := ((a * 16 + b) * 16 + c) * 16 + d
              if 0xD800 ≤ n ∧ n ≤ 0xDFFF then none
              else (readStringBody rest2).map fun r => (Char.ofNat n :: r.1, r.2)
            | _, _, _, _ => none
          | _ => none
        else
          match readEscape e with
          | some ch => (readStringBody rest1).map fun r => (ch :: r.1, r.2)
          | none => none
    else if c.toNat < 0x20 then none
    else (readStringBody rest).map fun r => (c :: r.1, r.2)

/-- JSON string with its quotes: the string it denotes and the input left. -/
def readString : List Char → Option (String × List Char)
  | [] => none
  | c :: rest =>
    if c = dquote then (readStringBody rest).map fun r => (String.mk r.1, r.2) else none

/-- JSON object member `"key":"value"` with a string value. -/
def readMember (input : List Char) : Option ((String × String) × List Char) :=
  match readString input with
  | none => none
  | some (key, rest) =>
    match rest with
    | ':' :: rest1 =>
      match readString rest1 with
      | none => none
      | some (value, rest2) => some ((key, value), rest2)
    | _ => none

/-- JSON object with exactly two members, both with string values and
nothing after the closing brace: the two members in the order of the text. -/
def readTwoMembers (text : String) : Option ((String × String) × (String × String)) :=
  match text.data with
  | '\x7b' :: rest =>
    match readMember rest with
    | none => none
    | some (m1, rest1) =>
      match rest1 with
      | ',' :: rest2 =>
        match readMember rest2 with
        | none => none
        | some (m2, rest3) => if rest3 = ['\x7d'] then some (m1, m2) else none
      | _ => none
  | _ => none

/-! ## Concrete values used to exercise the definitions -/

/-- Pass-through types of a small test backend: errors and payloads are
strings, the context is trivial. -/
abbrev testTypes : SlackTypes :=
  { Error := String, Context := Unit, HistoryResponse := String, Messages := List String,
    UserProfile := String, Users := List String, Channels := List String }

/-- Test backend that answers every call the same way: `fail` is the error
of every method, `hasMore` and `nextCursor` are its pagination outputs, a
posted message is reported as `("C1", "123.456")`, and the state counts the
calls received. -/
def testAPI (fail : Option String) (hasMore : Bool) (nextCursor : String) :
    SlackAPI testTypes Nat where
  AddReaction _ _ n := (fail, n + 1)
  GetConversationHistory params n := ((params.ChannelID, fail), n + 1)
  GetConversationReplies _ n := ((["m1", "m2"], hasMore, nextCursor, fail), n + 1)
  GetUserProfile params n := ((params.UserID, fail), n + 1)
  GetUsers _ n := ((["u1"], fail), n + 1)
  GetConversations _ n := ((["c1"], nextCursor, fail), n + 1)
  PostMessage _ _ n := (("C1", "123.456", fail), n + 1)

/-- Test serializer: a payload is rendered by joining its strings. -/
def testJson : JsonMarshal testTypes where
  historyResponse v := (v, none)
  messages v := (String.join v, none)
  userProfile v := (v, none)
  users v := (String.join v, none)
  channels v := (String.join v, none)

/-- Request without any argument. -/
def testEmpty : CallToolRequest :=
  { name := "add_reaction", arguments := [] }

/-- Argument map with a string, a number, a null, a list, a bool and a map. -/
def testArgs : Args :=
  [("channel", Value.str "C1"), ("limit", Value.number 3), ("cursor", Value.null),
   ("types", Value.list [Value.str "public_channel"]), ("inclusive", Value.bool true),
   ("metadata", Value.object [("k", Value.str "v")])]

/-- Request `post_message(channel="C1", text="hi")`. -/
def testPost : CallToolRequest :=
  { name := "post_message",
    arguments := [("channel", Value.str "C1"), ("text", Value.str "hi")] }

/-- Request with the three string arguments of `add_reaction` and
`reply_to_thread`. -/
def testThread : CallToolRequest :=
  { name := "reply_to_thread",
    arguments := [("channel", Value.str "C1"), ("timestamp", Value.str "111.222"),
      ("text", Value.str "hi"), ("reaction", Value.str "thumbsup")] }

/-- Startup in which the log file cannot be opened and the token is not set. -/
def envNoLog : Env :=
  { openLogFile := some "open /tmp/slack-mcp-go.log: permission denied", vars := [],
    serveResult := none }

/-- Startup in which the log file opens and the token is set but empty. -/
def envEmptyToken : Env :=
  { openLogFile := none, vars := [("SLACK_BOT_TOKEN", "")], serveResult := none }

/-! ## Theorems -/

section Theorems

variable {T : SlackTypes} {σ : Type}

theorem typeAssertString_not_str (v : Option Value)
    (hv : ∀ s, v ≠ some (Value.str s)) : typeAssertString v = ("", false) := by
  unfold typeAssertString
  split
  · rename_i s
    exact absurd rfl (hv s)
  · rfl

theorem marshalStringMap_posted {ε : Type} (c ts : String) :
    (marshalStringMap [("channel", c), ("timestamp", ts)] : String × Option ε) =
      (postedObject c ts, none) := by
  have hk : ¬ ("timestamp".data < "channel".data) := by decide
  simp only [marshalStringMap, postedObject, List.insertionSort, List.orderedInsert, hk,
    not_false_eq_true, if_true, encodeMembers]
  refine Prod.ext ?_ rfl
  apply String.ext
  simp only [String.data_append]
  have h1 : appendString "channel" = "\"channel\"".data := by decide
  have h2 : appendString "timestamp" = "\"timestamp\"".data := by decide
  rw [h1, h2]
  simp

theorem appendRune_plain (c : Char) (hc : plainChar c = true) : appendRune c = [c] := by
  unfold plainChar at hc
  unfold appendRune
  by_cases hs : htmlSafeSet c = true
  · have hlt : c.toNat < 0x80 := by
      unfold htmlSafeSet at hs
      simp only [Bool.and_eq_true, decide_eq_true_eq] at hs
      exact hs.1.2
    simp [hlt, hs]
  · simp only [hs, Bool.false_or, Bool.and_eq_true, decide_eq_true_eq, Bool.not_eq_true',
      Bool.or_eq_false_iff, beq_eq_false_iff_ne, ne_eq] at hc
    have hge : ¬ c.toNat < 0x80 := by omega
    simp [hge, hc.2.1, hc.2.2]

theorem appendString_plain (s : String) (hs : ∀ c ∈ s.data, plainChar c = true) :
    appendString s = dquote :: (s.data ++ [dquote]) := by
  unfold appendString
  have h : ∀ l : List Char, (∀ c ∈ l, plainChar c = true) → l.flatMap appendRune = l := by
    intro l
    induction l with
    | nil => intro _; rfl
    | cons a l ih =>
      intro hl
      rw [List.flatMap_cons, appendRune_plain a (hl a (List.mem_cons_self a l)),
        ih (fun c hc => hl c (List.mem_cons_of_mem a hc))]
      rfl
  rw [h s.data hs]

theorem postedObject_plain (c ts : String) (hc : ∀ x ∈ c.data, plainChar x = true)
    (hts : ∀ x ∈ ts.data, plainChar x = true) :
    postedObject c ts = "\x7b\"channel\":\"" ++ c ++ "\",\"timestamp\":\"" ++ ts ++ "\"\x7d" := by
  unfold postedObject
  rw [appendString_plain c hc, appendString_plain ts hts]
  apply String.ext
  simp only [String.data_append]
  simp [dquote]

theorem readHexDigit_hex (k : Fin 16) : readHexDigit (hex k.val) = some k.val := by
  revert k; decide

theorem backslash_ne_dquote : backslash ≠ dquote := by decide

theorem readStringBody_plain (c : Char) (tail : List Char) (h1 : c ≠ dquote)
    (h2 : c ≠ backslash) (h3 : ¬ c.toNat < 0x20) :
    readStringBody (c :: tail) = (readStringBody tail).map fun r => (c :: r.1, r.2) := by
  rw [readStringBody.eq_def]
  simp only [h1, h2, h3, if_false]

theorem readStringBody_escape (e ch : Char) (tail : List Char) (hu : e ≠ 'u')
    (he : readEscape e = some ch) :
    readStringBody (backslash :: e :: tail) =
      (readStringBody tail).map fun r => (ch :: r.1, r.2) := by
  rw [readStringBody.eq_def]
  simp only [backslash_ne_dquote, if_false, if_true, hu, he]

theorem readStringBody_unicode (h1 h2 h3 h4 : Char) (a b c d : Nat) (tail : List Char)
    (e1 : readHexDigit h1 = some a) (e2 : readHexDigit h2 = some b)
    (e3 : readHexDigit h3 = some c) (e4 : readHexDigit h4 = some d)
    (hn : ¬ (0xD800 ≤ ((a * 16 + b) * 16 + c) * 16 + d ∧
      ((a * 16 + b) * 16 + c) * 16 + d ≤ 0xDFFF)) :
    readStringBody (backslash :: 'u' :: h1 :: h2 :: h3 :: h4 :: tail) =
      (readStringBody tail).map fun r =>
        (Char.ofNat (((a * 16 + b) * 16 + c) * 16 + d) :: r.1, r.2) := by
  rw [readStringBody.eq_def]
  simp only [backslash_ne_dquote, if_false, if_true, e1, e2, e3, e4, hn]

theorem readStringBody_appendRune (c : Char) (tail : List Char) :
    readStringBody (appendRune c ++ tail) =
      (readStringBody tail).map fun r => (c :: r.1, r.2) := by
  have hq : dquote.toNat = 0x22 := by decide
  have hb : backslash.toNat = 0x5c := by decide
  unfold appendRune
  by_cases hlt : c.toNat < 0x80
  · rw [if_pos hlt]
    by_cases hs : htmlSafeSet c = true
    · rw [if_pos hs]
      unfold htmlSafeSet at hs
      simp only [Bool.and_eq_true, decide_eq_true_eq, Bool.not_eq_true', Bool.or_eq_false_iff,
        beq_eq_false_iff_ne, ne_eq] at hs
      exact readStringBody_plain c tail hs.2.1.1.1.1 hs.2.2 (by omega)
    · rw [if_neg hs]
      by_cases h1 : c = backslash ∨ c = dquote
      · rw [if_pos h1]
        rcases h1 with h | h <;> subst h
        · exact readStringBody_escape backslash backslash tail (by decide) (by decide)
        · exact readStringBody_escape dquote dquote tail (by decide) (by decide)
      · rw [if_neg h1]
        by_cases h2 : c = Char.ofNat 0x08
        · rw [if_pos h2]; subst h2
          exact readStringBody_escape 'b' _ tail (by decide) (by decide)
        rw [if_neg h2]
        by_cases h3 : c = Char.ofNat 0x0c
        · rw [if_pos h3]; subst h3
          exact readStringBody_escape 'f' _ tail (by decide) (by decide)
        rw [if_neg h3]
        by_cases h4 : c = Char.ofNat 0x0a
        · rw [if_pos h4]; subst h4
          exact readStringBody_escape 'n' _ tail (by decide) (by decide)
        rw [if_neg h4]
        by_cases h5 : c = Char.ofNat 0x0d
        · rw [if_pos h5]; subst h5
          exact readStringBody_escape 'r' _ tail (by decide) (by decide)
        rw [if_neg h5]
        by_cases h6 : c = Char.ofNat 0x09
        · rw [if_pos h6]; subst h6
          exact readStringBody_escape 't' _ tail (by decide) (by decide)
        rw [if_neg h6]
        have e0 : readHexDigit '0' = some 0 := by decide
        have e3 := readHexDigit_hex ⟨c.toNat / 16, by omega⟩
        have e4 := readHexDigit_hex ⟨c.toNat % 16, by omega⟩
        have key := readStringBody_unicode '0' '0' (hex (c.toNat / 16)) (hex (c.toNat % 16))
          0 0 (c.toNat / 16) (c.toNat % 16) tail e0 e0 e3 e4 (by omega)
        have hv : ((0 * 16 + 0) * 16 + c.toNat / 16) * 16 + c.toNat % 16 = c.toNat := by omega
        rw [hv, Char.ofNat_toNat] at key
        exact key
  · rw [if_neg hlt]
    by_cases h1 : c = Char.ofNat 0x2028 ∨ c = Char.ofNat 0x2029
    · rw [if_pos h1]
      have e0 : readHexDigit '0' = some 0 := by decide
      have e2 : readHexDigit '2' = some 2 := by decide
      rcases h1 with h | h <;> subst h
      · exact readStringBody_unicode '2' '0' '2' _ 2 0 2 8 tail e2 e0 e2 (by decide) (by decide)
      · exact readStringBody_unicode '2' '0' '2' _ 2 0 2 9 tail e2 e0 e2 (by decide) (by decide)
    · rw [if_neg h1]
      refine readStringBody_plain c tail ?_ ?_ (by omega)
      · intro h; rw [h, hq] at hlt; omega
      · intro h; rw [h, hb] at hlt; omega

theorem readStringBody_flatMap (s tail : List Char) :
    readStringBody (s.flatMap appendRune ++ dquote :: tail) = some (s, tail) := by
  induction s with
  | nil =>
    rw [List.flatMap_nil, List.nil_append, readStringBody.eq_def]
    simp only [if_true]
  | cons c s ih =>
    rw [List.flatMap_cons, List.append_assoc, readStringBody_appendRune, ih]
    rfl

theorem readString_appendString (s : String) (tail : List Char) :
    readString (appendString s ++ tail) = some (s, tail) := by
  unfold appendString
  simp only [List.cons_append, List.append_assoc, List.singleton_append, readString, if_true,
    readStringBody_flatMap]
  rfl

theorem readMember_encoded (k v : String) (tail : List Char) :
    readMember (appendString k ++ ':' :: appendString v ++ tail) = some ((k, v), tail) := by
  unfold readMember
  simp only [List.append_assoc, List.cons_append, readString_appendString]

theorem readTwoMembers_marshal {ε : Type} (c ts : String) :
    readTwoMembers (marshalStringMap [("channel", c), ("timestamp", ts)] : String × Option ε).1 =
      some (("channel", c), ("timestamp", ts)) := by
  have hk : ¬ ("timestamp".data < "channel".data) := by decide
  simp only [marshalStringMap, List.insertionSort, List.orderedInsert, hk,
    not_false_eq_true, if_true, encodeMembers, readTwoMembers]
  simp only [List.append_assoc, List.cons_append]
  have h := readMember_encoded "channel" c
    (',' :: (appendString "timestamp" ++ ':' :: (appendString ts ++ ['\x7d'])))
  simp only [List.append_assoc, List.cons_append] at h
  rw [h]
  have h2 := readMember_encoded "timestamp" ts ['\x7d']
  simp only [List.append_assoc, List.cons_append] at h2
  simp only [h2, if_true]

theorem lookup_of_mem_nodup (args : Args) (name : String) (v : Value)
    (hmap : (args.map Prod.fst).Nodup) (hv : (name, v) ∈ args) :
    List.lookup name args = some v := by
  induction args with
  | nil => cases hv
  | cons p rest ih =>
    obtain ⟨k, w⟩ := p
    rw [List.map_cons, List.nodup_cons] at hmap
    rw [List.lookup_cons]
    rcases List.mem_cons.mp hv with h | h
    · cases h
      simp
    · have hk : name ≠ k := by
        intro hk
        subst hk
        exact hmap.1 (List.mem_map.mpr ⟨(name, v), h, rfl⟩)
      have hb : (name == k) = false := by simpa using hk
      rw [hb]
      exact ih hmap.2 h

theorem lookup_of_absent (args : Args) (name : String) (hv : ∀ v, (name, v) ∉ args) :
    List.lookup name args = none := by
  rw [List.lookup_eq_none_iff]
  intro p hp
  obtain ⟨k, w⟩ := p
  simp only [bne_iff_ne, ne_eq]
  intro hk
  subst hk
  exact hv w hp

theorem mem_of_lookup (args : Args) (name : String) (v : Value)
    (hv : List.lookup name args = some v) : (name, v) ∈ args := by
  obtain ⟨l₁, l₂, h, _⟩ := List.lookup_eq_some_iff.mp hv
  rw [h]
  exact List.mem_append_right l₁ (List.mem_cons_self (name, v) l₂)

/-- C1: in each of the eight handlers, when the one backend operation the
handler calls returns an error `e`, `Call` returns a nil result together with
exactly `e`. -/
theorem backend_error_propagated (json : JsonMarshal T) (h : BaseHandler T σ) (ctx : T.Context)
    (request : CallToolRequest) (s : σ) (e : T.Error) :
    ((h.api.AddReaction (stringArg request "reaction")
          (NewRefToMessage (stringArg request "channel") (stringArg request "timestamp")) s).1
        = some e →
      (AddReactionHandler.Call h ctx request s).1 = (none, some e)) ∧
    ((h.api.GetConversationHistory { ChannelID := stringArg request "channel" } s).1.2 = some e →
      (GetChannelHistoryHandler.Call json h ctx request s).1 = (none, some e)) ∧
    ((h.api.GetConversationReplies
          { ChannelID := stringArg request "channel",
            Timestamp := stringArg request "timestamp" } s).1.2.2.2 = some e →
      (GetThreadRepliesHandler.Call json h ctx request s).1 = (none, some e)) ∧
    ((h.api.GetUserProfile { UserID := stringArg request "user_id" } s).1.2 = some e →
      (GetUserProfileHandler.Call json h ctx request s).1 = (none, some e)) ∧
    ((h.api.GetUsers ctx s).1.2 = some e →
      (GetUsersHandler.Call json h ctx request s).1 = (none, some e)) ∧
    ((h.api.GetConversations {} s).1.2.2 = some e →
      (ListChannelsHandler.Call json h ctx request s).1 = (none, some e)) ∧
    ((h.api.PostMessage (stringArg request "channel")
          [MsgOption.MsgOptionText (stringArg request "text") false] s).1.2.2 = some e →
      (PostMessageHandler.Call h ctx request s).1 = (none, some e)) ∧
    ((h.api.PostMessage (stringArg request "channel")
          [MsgOption.MsgOptionText (stringArg request "text") false,
           MsgOption.MsgOptionTS (stringArg request "timestamp")] s).1.2.2 = some e →
      (ReplyToThreadHandler.Call h ctx request s).1 = (none, some e)) := by
  refine ⟨?_, ?_, ?_, ?_, ?_, ?_, ?_, ?_⟩ <;> intro he
  · simp only [AddReactionHandler.Call, stringArg] at he ⊢
    rw [he]
  · simp only [GetChannelHistoryHandler.Call, stringArg] at he ⊢
    rw [he]
  · simp only [GetThreadRepliesHandler.Call, stringArg] at he ⊢
    rw [he]
  · simp only [GetUserProfileHandler.Call, stringArg] at he ⊢
    rw [he]
  · simp only [GetUsersHandler.Call] at he ⊢
    rw [he]
  · simp only [ListChannelsHandler.Call] at he ⊢
    rw [he]
  · simp only [PostMessageHandler.Call, stringArg] at he ⊢
    rw [he]
  · simp only [ReplyToThreadHandler.Call, stringArg] at he ⊢
    rw [he]

/-- Witness of C1: against the test backend failing with `"boom"`, each of
the eight handlers returns no result and the error `"boom"`. -/
theorem backend_error_propagated_witness :
    (AddReactionHandler.Call ⟨testAPI (some "boom") false ""⟩ () testThread 0).1
        = (none, some "boom") ∧
    (GetChannelHistoryHandler.Call testJson ⟨testAPI (some "boom") false ""⟩ () testThread 0).1
        = (none, some "boom") ∧
    (GetThreadRepliesHandler.Call testJson ⟨testAPI (some "boom") false ""⟩ () testThread 0).1
        = (none, some "boom") ∧
    (GetUserProfileHandler.Call testJson ⟨testAPI (some "boom") false ""⟩ () testThread 0).1
        = (none, some "boom") ∧
    (GetUsersHandler.Call testJson ⟨testAPI (some "boom") false ""⟩ () testThread 0).1
        = (none, some "boom") ∧
    (ListChannelsHandler.Call testJson ⟨testAPI (some "boom") false ""⟩ () testThread 0).1
        = (none, some "boom") ∧
    (PostMessageHandler.Call ⟨testAPI (some "boom") false ""⟩ () testThread 0).1
        = (none, some "boom") ∧
    (ReplyToThreadHandler.Call ⟨testAPI (some "boom") false ""⟩ () testThread 0).1
        = (none, some "boom") :=
  have t := backend_error_propagated testJson ⟨testAPI (some "boom") false ""⟩ () testThread 0
    "boom"
  ⟨t.1 rfl, t.2.1 rfl, t.2.2.1 rfl, t.2.2.2.1 rfl, t.2.2.2.2.1 rfl, t.2.2.2.2.2.1 rfl,
    t.2.2.2.2.2.2.1 rfl, t.2.2.2.2.2.2.2 rfl⟩

/-- C2: when the backend's `PostMessage` returns `(c, ts)` without error,
`PostMessageHandler.Call` succeeds with exactly one text content; read as
JSON, its text is an object with exactly the members `channel`, holding the
returned `c`, and `timestamp`, holding the returned `ts`, in that order.  The
text is the encoding `postedObject c ts`, and when neither `c` nor `ts` needs
an escape it is literally `{"channel":"c","timestamp":"ts"}`. -/
theorem post_message_result (h : BaseHandler T σ) (ctx : T.Context) (request : CallToolRequest)
    (s : σ) (c ts : String)
    (hb : (h.api.PostMessage (stringArg request "channel")
        [MsgOption.MsgOptionText (stringArg request "text") false] s).1 = (c, ts, none)) :
    (∃ text, (PostMessageHandler.Call h ctx request s).1 = (some (textResult text), none) ∧
      readTwoMembers text = some (("channel", c), ("timestamp", ts))) ∧
    (PostMessageHandler.Call h ctx request s).1 = (some (textResult (postedObject c ts)), none) ∧
    ((∀ x ∈ c.data, plainChar x = true) → (∀ x ∈ ts.data, plainChar x = true) →
      (PostMessageHandler.Call h ctx request s).1 =
        (some (textResult
          ("\x7b\"channel\":\"" ++ c ++ "\",\"timestamp\":\"" ++ ts ++ "\"\x7d")), none)) := by
  have key : (PostMessageHandler.Call h ctx request s).1
      = (some (textResult (postedObject c ts)), none) := by
    simp only [PostMessageHandler.Call, stringArg] at hb ⊢
    rw [hb]
    simp only [marshalStringMap_posted]
    rfl
  have hread : readTwoMembers (postedObject c ts) = some (("channel", c), ("timestamp", ts)) := by
    have hm := readTwoMembers_marshal c ts (ε := T.Error)
    rw [marshalStringMap_posted] at hm
    exact hm
  refine ⟨⟨postedObject c ts, key, hread⟩, key, fun hc hts => ?_⟩
  rw [key, postedObject_plain c ts hc hts]

/-- Witness of C2: `post_message(channel="C1", text="hi")` against the test
backend returning `("C1", "123.456")` yields the text
`{"channel":"C1","timestamp":"123.456"}`, which reads back as the two
members. -/
theorem post_message_result_witness :
    ((testAPI none false "").PostMessage (stringArg testPost "channel")
        [MsgOption.MsgOptionText (stringArg testPost "text") false] 0).1
      = ("C1", "123.456", none) ∧
    stringArg testPost "channel" = "C1" ∧ stringArg testPost "text" = "hi" ∧
    (PostMessageHandler.Call ⟨testAPI none false ""⟩ () testPost 0).1 =
      (some (textResult "\x7b\"channel\":\"C1\",\"timestamp\":\"123.456\"\x7d"), none) ∧
    readTwoMembers "\x7b\"channel\":\"C1\",\"timestamp\":\"123.456\"\x7d" =
      some (("channel", "C1"), ("timestamp", "123.456")) :=
  ⟨rfl, by decide, by decide,
    (post_message_result ⟨testAPI none false ""⟩ () testPost 0 "C1" "123.456" rfl).2.2
      (by decide) (by decide),
    by decide⟩

/-- C3: on an argument map (every name bound at most once), the extraction
`args[name].(string)` yields the value bound to `name` when that value is a
string, and the empty string when `name` is not bound or is bound to a value
of any other type; the `ok` flag, which the handlers drop, is the only trace
of the difference, and there is no error case. -/
theorem argument_extraction (args : Args) (name : String)
    (hmap : (args.map Prod.fst).Nodup) :
    (∀ s, (name, Value.str s) ∈ args → typeAssertString (args.index name) = (s, true)) ∧
    ((∀ v, (name, v) ∉ args) → typeAssertString (args.index name) = ("", false)) ∧
    (∀ v, (name, v) ∈ args → (∀ s, v ≠ Value.str s) →
      typeAssertString (args.index name) = ("", false)) ∧
    ((typeAssertString (args.index name)).2 = true ↔ ∃ s, (name, Value.str s) ∈ args) := by
  refine ⟨fun s hs => ?_, fun hn => ?_, fun v hv hne => ?_, ?_, ?_⟩
  · unfold Args.index
    rw [lookup_of_mem_nodup args name _ hmap hs]
    rfl
  · unfold Args.index
    rw [lookup_of_absent args name hn]
    rfl
  · unfold Args.index
    rw [lookup_of_mem_nodup args name v hmap hv]
    exact typeAssertString_not_str (some v) (fun s hs => hne s (Option.some.inj hs))
  · intro hok
    unfold Args.index at hok
    cases hl : List.lookup name args with
    | none => rw [hl] at hok; cases hok
    | some v =>
      cases v with
      | str s => exact ⟨s, mem_of_lookup args name _ hl⟩
      | null => rw [hl] at hok; cases hok
      | bool b => rw [hl] at hok; cases hok
      | number n => rw [hl] at hok; cases hok
      | list xs => rw [hl] at hok; cases hok
      | object kv => rw [hl] at hok; cases hok
  · rintro ⟨s, hs⟩
    unfold Args.index
    rw [lookup_of_mem_nodup args name _ hmap hs]
    rfl

/-- Witness of C3: on a map binding `channel` to a string, `limit` to a
number, `cursor` to null, `types` to a list, `inclusive` to a bool and
`metadata` to a map, extraction gives `"C1"` for `channel` and the empty
string for the absent `text` and for each of the others. -/
theorem argument_extraction_witness :
    (testArgs.map Prod.fst).Nodup ∧
    (typeAssertString (testArgs.index "channel")).1 = "C1" ∧
    (typeAssertString (testArgs.index "text")).1 = "" ∧
    (typeAssertString (testArgs.index "limit")).1 = "" ∧
    (typeAssertString (testArgs.index "cursor")).1 = "" ∧
    (typeAssertString (testArgs.index "types")).1 = "" ∧
    (typeAssertString (testArgs.index "inclusive")).1 = "" ∧
    (typeAssertString (testArgs.index "metadata")).1 = "" :=
  have hmap : (testArgs.map Prod.fst).Nodup := by decide
  ⟨hmap,
   congrArg Prod.fst ((argument_extraction testArgs "channel" hmap).1 "C1"
     (List.Mem.head _)),
   congrArg Prod.fst ((argument_extraction testArgs "text" hmap).2.1
     (fun v hv => by simp [testArgs] at hv)),
   congrArg Prod.fst ((argument_extraction testArgs "limit" hmap).2.2.1 (Value.number 3)
     (List.Mem.tail _ (List.Mem.head _)) (fun _ hv => Value.noConfusion hv)),
   congrArg Prod.fst ((argument_extraction testArgs "cursor" hmap).2.2.1 Value.null
     (List.Mem.tail _ (List.Mem.tail _ (List.Mem.head _))) (fun _ hv => Value.noConfusion hv)),
   congrArg Prod.fst ((argument_extraction testArgs "types" hmap).2.2.1
     (Value.list [Value.str "public_channel"])
     (List.Mem.tail _ (List.Mem.tail _ (List.Mem.tail _ (List.Mem.head _))))
     (fun _ hv => Value.noConfusion hv)),
   congrArg Prod.fst ((argument_extraction testArgs "inclusive" hmap).2.2.1 (Value.bool true)
     (List.Mem.tail _ (List.Mem.tail _ (List.Mem.tail _ (List.Mem.tail _ (List.Mem.head _)))))
     (fun _ hv => Value.noConfusion hv)),
   congrArg Prod.fst ((argument_extraction testArgs "metadata" hmap).2.2.1
     (Value.object [("k", Value.str "v")])
     (List.Mem.tail _ (List.Mem.tail _ (List.Mem.tail _ (List.Mem.tail _
       (List.Mem.tail _ (List.Mem.head _))))))
     (fun _ hv => Value.noConfusion hv))⟩

/-- C4: for a request whose `channel`, `timestamp` and `text` are the strings
`c`, `p` and `t`, `ReplyToThreadHandler.Call` calls `PostMessage` on channel
`c` with exactly the options text `t` (escaping off) and thread timestamp `p`,
in that order: the call `PostMessageHandler.Call` makes with the thread
timestamp option appended; and it builds its result from the backend's reply
as `PostMessageHandler.Call` does. -/
theorem reply_to_thread_call (api : SlackAPI T σ) (ctx : T.Context) (request : CallToolRequest)
    (s : σ) (log : List (BackendCall T)) (c p t : String)
    (hc : request.GetArguments.index "channel" = some (Value.str c))
    (hp : request.GetArguments.index "timestamp" = some (Value.str p))
    (ht : request.GetArguments.index "text" = some (Value.str t)) :
    (ReplyToThreadHandler.Call ⟨recording api⟩ ctx request (s, log)).2.2 =
      log ++ [BackendCall.PostMessage c
        ([MsgOption.MsgOptionText t false] ++ [MsgOption.MsgOptionTS p])] ∧
    (PostMessageHandler.Call ⟨recording api⟩ ctx request (s, log)).2.2 =
      log ++ [BackendCall.PostMessage c [MsgOption.MsgOptionText t false]] ∧
    (∀ (τ : Type) (api' : SlackAPI T τ) (s' : τ),
      (api'.PostMessage c [MsgOption.MsgOptionText t false] s').1 =
        (api.PostMessage c [MsgOption.MsgOptionText t false, MsgOption.MsgOptionTS p] s).1 →
      (PostMessageHandler.Call ⟨api'⟩ ctx request s').1 =
        (ReplyToThreadHandler.Call ⟨api⟩ ctx request s).1) := by
  refine ⟨?_, ?_, ?_⟩
  · simp only [ReplyToThreadHandler.Call, recording, hc, hp, ht, typeAssertString]
    repeat (first | rfl | split)
  · simp only [PostMessageHandler.Call, recording, hc, ht, typeAssertString]
    repeat (first | rfl | split)
  · intro τ api' s' hr
    simp only [PostMessageHandler.Call, ReplyToThreadHandler.Call, hc, hp, ht, typeAssertString,
      hr]
    repeat (first | rfl | split)

/-- Witness of C4: `reply_to_thread(channel="C1", timestamp="111.222",
text="hi")` on the recording test backend logs one `PostMessage` on `"C1"`
with the text option and the thread timestamp option. -/
theorem reply_to_thread_call_witness :
    (ReplyToThreadHandler.Call ⟨recording (testAPI none false "")⟩ () testThread (0, [])).2.2 =
      [BackendCall.PostMessage "C1"
        [MsgOption.MsgOptionText "hi" false, MsgOption.MsgOptionTS "111.222"]] :=
  (reply_to_thread_call (testAPI none false "") () testThread 0 [] "C1" "111.222" "hi"
    rfl rfl rfl).1

/-- C5: a missing or non-string argument is extracted as the empty string,
and for `add_reaction`, `post_message` and `reply_to_thread`, whatever the
argument map, the backend is called once with the extracted strings and the
error the handler returns is the error of that call: present exactly when
the backend's is. -/
theorem missing_argument_not_an_error (api : SlackAPI T σ) (ctx : T.Context)
    (request : CallToolRequest) (s : σ) (log : List (BackendCall T)) :
    (∀ name, (∀ v, request.GetArguments.index name ≠ some (Value.str v)) →
      stringArg request name = "") ∧
    ((AddReactionHandler.Call ⟨recording api⟩ ctx request (s, log)).2.2 =
        log ++ [BackendCall.AddReaction (stringArg request "reaction")
          (NewRefToMessage (stringArg request "channel") (stringArg request "timestamp"))] ∧
      (AddReactionHandler.Call ⟨api⟩ ctx request s).1.2 =
        (api.AddReaction (stringArg request "reaction")
          (NewRefToMessage (stringArg request "channel") (stringArg request "timestamp")) s).1) ∧
    ((PostMessageHandler.Call ⟨recording api⟩ ctx request (s, log)).2.2 =
        log ++ [BackendCall.PostMessage (stringArg request "channel")
          [MsgOption.MsgOptionText (stringArg request "text") false]] ∧
      (PostMessageHandler.Call ⟨api⟩ ctx request s).1.2 =
        (api.PostMessage (stringArg request "channel")
          [MsgOption.MsgOptionText (stringArg request "text") false] s).1.2.2) ∧
    ((ReplyToThreadHandler.Call ⟨recording api⟩ ctx request (s, log)).2.2 =
        log ++ [BackendCall.PostMessage (stringArg request "channel")
          [MsgOption.MsgOptionText (stringArg request "text") false,
           MsgOption.MsgOptionTS (stringArg request "timestamp")]] ∧
      (ReplyToThreadHandler.Call ⟨api⟩ ctx request s).1.2 =
        (api.PostMessage (stringArg request "channel")
          [MsgOption.MsgOptionText (stringArg request "text") false,
           MsgOption.MsgOptionTS (stringArg request "timestamp")] s).1.2.2) := by
  refine ⟨fun name hn => ?_, ⟨?_, ?_⟩, ⟨?_, ?_⟩, ⟨?_, ?_⟩⟩
  · unfold stringArg
    rw [typeAssertString_not_str _ hn]
  · simp only [AddReactionHandler.Call, recording, stringArg]
    repeat (first | rfl | split)
  · simp only [AddReactionHandler.Call, stringArg]
    split <;> simp_all
  · simp only [PostMessageHandler.Call, recording, stringArg]
    repeat (first | rfl | split)
  · simp only [PostMessageHandler.Call, stringArg, marshalStringMap_posted]
    split <;> simp_all
  · simp only [ReplyToThreadHandler.Call, recording, stringArg]
    repeat (first | rfl | split)
  · simp only [ReplyToThreadHandler.Call, stringArg, marshalStringMap_posted]
    split <;> simp_all

/-- Witness of C5: in a request without arguments no name is bound to a
string, `channel` is extracted as the empty string, and `add_reaction` still
reaches the backend, with empty strings, and succeeds. -/
theorem missing_argument_not_an_error_witness :
    (∀ v, testEmpty.GetArguments.index "channel" ≠ some (Value.str v)) ∧
    stringArg testEmpty "channel" = "" ∧
    (AddReactionHandler.Call ⟨recording (testAPI none false "")⟩ () testEmpty (0, [])).2.2 =
      [BackendCall.AddReaction "" { Channel := "", Timestamp := "", File := "", Comment := "" }] ∧
    (AddReactionHandler.Call ⟨testAPI none false ""⟩ () testEmpty 0).1.2 = none :=
  have t := missing_argument_not_an_error (testAPI none false "") () testEmpty 0 []
  ⟨fun _ hv => Option.noConfusion hv,
   t.1 "channel" (fun _ hv => Option.noConfusion hv),
   t.2.1.1,
   t.2.1.2⟩

/-- C6: for a request whose `channel`, `timestamp` and `reaction` are the
strings `c`, `p` and `r`, `AddReactionHandler.Call` calls `AddReaction` with
name `r` and the reference to the message `(c, p)`; and for every request,
when that call returns no error the result is the text result `"success"`. -/
theorem add_reaction_call (api : SlackAPI T σ) (ctx : T.Context) (s : σ)
    (log : List (BackendCall T)) :
    (∀ (request : CallToolRequest) (c p r : String),
      request.GetArguments.index "channel" = some (Value.str c) →
      request.GetArguments.index "timestamp" = some (Value.str p) →
      request.GetArguments.index "reaction" = some (Value.str r) →
      (AddReactionHandler.Call ⟨recording api⟩ ctx request (s, log)).2.2 =
        log ++ [BackendCall.AddReaction r
          { Channel := c, Timestamp := p, File := "", Comment := "" }]) ∧
    (∀ request : CallToolRequest,
      (api.AddReaction (stringArg request "reaction")
        (NewRefToMessage (stringArg request "channel") (stringArg request "timestamp")) s).1
          = none →
      (AddReactionHandler.Call ⟨api⟩ ctx request s).1 = (some (textResult "success"), none)) := by
  refine ⟨fun request c p r hc hp hr => ?_, fun request hn => ?_⟩
  · simp only [AddReactionHandler.Call, recording, hc, hp, hr, typeAssertString,
      NewRefToMessage]
    repeat (first | rfl | split)
  · simp only [AddReactionHandler.Call, stringArg] at hn ⊢
    rw [hn]
    rfl

/-- Witness of C6: `add_reaction` with `channel="C1"`, `timestamp="111.222"`,
`reaction="thumbsup"` on the recording test backend logs that call, and on
the test backend returns `"success"`. -/
theorem add_reaction_call_witness :
    (AddReactionHandler.Call ⟨recording (testAPI none false "")⟩ () testThread (0, [])).2.2 =
      [BackendCall.AddReaction "thumbsup"
        { Channel := "C1", Timestamp := "111.222", File := "", Comment := "" }] ∧
    (AddReactionHandler.Call ⟨testAPI none false ""⟩ () testThread 0).1 =
      (some (textResult "success"), none) :=
  ⟨(add_reaction_call (testAPI none false "") () 0 []).1 testThread "C1" "111.222" "thumbsup"
      rfl rfl rfl,
   (add_reaction_call (testAPI none false "") () 0 []).2 testThread rfl⟩

/-- C7: in `GetChannelHistory`, `GetThreadReplies`, `GetUserProfile`,
`GetUsers` and `ListChannels`, when the backend returns a value `v` without
error and `json.Marshal` turns `v` into `bytes` without error, `Call` returns
a result with exactly one content item, a text content whose text is `bytes`. -/
theorem pass_through (json : JsonMarshal T) (h : BaseHandler T σ) (ctx : T.Context)
    (request : CallToolRequest) (s : σ) (bytes : String) :
    (∀ v, (h.api.GetConversationHistory { ChannelID := stringArg request "channel" } s).1
          = (v, none) →
      json.historyResponse v = (bytes, none) →
      (GetChannelHistoryHandler.Call json h ctx request s).1 = (some (textResult bytes), none)) ∧
    (∀ v hasMore nextCursor,
      (h.api.GetConversationReplies
          { ChannelID := stringArg request "channel",
            Timestamp := stringArg request "timestamp" } s).1
          = (v, hasMore, nextCursor, none) →
      json.messages v = (bytes, none) →
      (GetThreadRepliesHandler.Call json h ctx request s).1 = (some (textResult bytes), none)) ∧
    (∀ v, (h.api.GetUserProfile { UserID := stringArg request "user_id" } s).1 = (v, none) →
      json.userProfile v = (bytes, none) →
      (GetUserProfileHandler.Call json h ctx request s).1 = (some (textResult bytes), none)) ∧
    (∀ v, (h.api.GetUsers ctx s).1 = (v, none) →
      json.users v = (bytes, none) →
      (GetUsersHandler.Call json h ctx request s).1 = (some (textResult bytes), none)) ∧
    (∀ v nextCursor, (h.api.GetConversations {} s).1 = (v, nextCursor, none) →
      json.channels v = (bytes, none) →
      (ListChannelsHandler.Call json h ctx request s).1 = (some (textResult bytes), none)) := by
  refine ⟨fun v hv hj => ?_, fun v hasMore nextCursor hv hj => ?_, fun v hv hj => ?_,
    fun v hv hj => ?_, fun v nextCursor hv hj => ?_⟩
  · simp only [GetChannelHistoryHandler.Call, stringArg] at hv ⊢
    rw [hv]
    simp only [hj]
    rfl
  · simp only [GetThreadRepliesHandler.Call, stringArg] at hv ⊢
    rw [hv]
    simp only [hj]
    rfl
  · simp only [GetUserProfileHandler.Call, stringArg] at hv ⊢
    rw [hv]
    simp only [hj]
    rfl
  · simp only [GetUsersHandler.Call] at hv ⊢
    rw [hv]
    simp only [hj]
    rfl
  · simp only [ListChannelsHandler.Call] at hv ⊢
    rw [hv]
    simp only [hj]
    rfl

/-- Witness of C7: on the test backend with the test serializer the five
handlers return the serialization of what the backend returned. -/
theorem pass_through_witness :
    (GetChannelHistoryHandler.Call testJson ⟨testAPI none true "next"⟩ () testThread 0).1
      = (some (textResult "C1"), none) ∧
    (GetThreadRepliesHandler.Call testJson ⟨testAPI none true "next"⟩ () testThread 0).1
      = (some (textResult (String.join ["m1", "m2"])), none) ∧
    (GetUserProfileHandler.Call testJson ⟨testAPI none true "next"⟩ () testThread 0).1
      = (some (textResult ""), none) ∧
    (GetUsersHandler.Call testJson ⟨testAPI none true "next"⟩ () testThread 0).1
      = (some (textResult (String.join ["u1"])), none) ∧
    (ListChannelsHandler.Call testJson ⟨testAPI none true "next"⟩ () testThread 0).1
      = (some (textResult (String.join ["c1"])), none) :=
  ⟨(pass_through testJson ⟨testAPI none true "next"⟩ () testThread 0 "C1").1 "C1" rfl rfl,
   (pass_through testJson ⟨testAPI none true "next"⟩ () testThread 0
      (String.join ["m1", "m2"])).2.1 ["m1", "m2"] true "next" rfl rfl,
   (pass_through testJson ⟨testAPI none true "next"⟩ () testThread 0 "").2.2.1 "" rfl rfl,
   (pass_through testJson ⟨testAPI none true "next"⟩ () testThread 0
      (String.join ["u1"])).2.2.2.1 ["u1"] rfl rfl,
   (pass_through testJson ⟨testAPI none true "next"⟩ () testThread 0
      (String.join ["c1"])).2.2.2.2 ["c1"] "next" rfl rfl⟩

/-- C8: on a backend that logs its calls, one invocation of any of the eight
handlers extends the log by exactly one call, that of the handler's own
operation, whether the call succeeds or fails. -/
theorem one_backend_call (json : JsonMarshal T) (api : SlackAPI T σ) (ctx : T.Context)
    (request : CallToolRequest) (s : σ) (log : List (BackendCall T)) :
    (AddReactionHandler.Call ⟨recording api⟩ ctx request (s, log)).2.2 =
      log ++ [BackendCall.AddReaction (stringArg request "reaction")
        (NewRefToMessage (stringArg request "channel") (stringArg request "timestamp"))] ∧
    (GetChannelHistoryHandler.Call json ⟨recording api⟩ ctx request (s, log)).2.2 =
      log ++ [BackendCall.GetConversationHistory { ChannelID := stringArg request "channel" }] ∧
    (GetThreadRepliesHandler.Call json ⟨recording api⟩ ctx request (s, log)).2.2 =
      log ++ [BackendCall.GetConversationReplies
        { ChannelID := stringArg request "channel",
          Timestamp := stringArg request "timestamp" }] ∧
    (GetUserProfileHandler.Call json ⟨recording api⟩ ctx request (s, log)).2.2 =
      log ++ [BackendCall.GetUserProfile { UserID := stringArg request "user_id" }] ∧
    (GetUsersHandler.Call json ⟨recording api⟩ ctx request (s, log)).2.2 =
      log ++ [BackendCall.GetUsers ctx] ∧
    (ListChannelsHandler.Call json ⟨recording api⟩ ctx request (s, log)).2.2 =
      log ++ [BackendCall.GetConversations {}] ∧
    (PostMessageHandler.Call ⟨recording api⟩ ctx request (s, log)).2.2 =
      log ++ [BackendCall.PostMessage (stringArg request "channel")
        [MsgOption.MsgOptionText (stringArg request "text") false]] ∧
    (ReplyToThreadHandler.Call ⟨recording api⟩ ctx request (s, log)).2.2 =
      log ++ [BackendCall.PostMessage (stringArg request "channel")
        [MsgOption.MsgOptionText (stringArg request "text") false,
         MsgOption.MsgOptionTS (stringArg request "timestamp")]] := by
  refine ⟨?_, ?_, ?_, ?_, ?_, ?_, ?_, ?_⟩
  · simp only [AddReactionHandler.Call, recording, stringArg]
    repeat (first | rfl | split)
  · simp only [GetChannelHistoryHandler.Call, recording, stringArg]
    repeat (first | rfl | split)
  · simp only [GetThreadRepliesHandler.Call, recording, stringArg]
    repeat (first | rfl | split)
  · simp only [GetUserProfileHandler.Call, recording, stringArg]
    repeat (first | rfl | split)
  · simp only [GetUsersHandler.Call, recording]
    repeat (first | rfl | split)
  · simp only [ListChannelsHandler.Call, recording]
    repeat (first | rfl | split)
  · simp only [PostMessageHandler.Call, recording, stringArg]
    repeat (first | rfl | split)
  · simp only [ReplyToThreadHandler.Call, recording, stringArg]
    repeat (first | rfl | split)

/-- C9, counterexample: in a startup where the token is not set and the log
file cannot be opened, standard error does not hold the token message. -/
theorem main_no_token_counterexample :
    List.lookup "SLACK_BOT_TOKEN" envNoLog.vars = none ∧
    stderrOf (main envNoLog) ≠ "Error: SLACK_BOT_TOKEN environment variable not set\n" ∧
    stderrOf (main envNoLog) =
      "Fatal: could not open log file: open /tmp/slack-mcp-go.log: permission denied\n" := by
  decide

/-- C9, amended: in every startup with `SLACK_BOT_TOKEN` unset or empty the
process exits with status 1 and neither constructs the Slack client or the
server, nor registers a tool, nor serves; when the log file opened, standard
error holds exactly the line
`Error: SLACK_BOT_TOKEN environment variable not set`, and when it did not,
exactly the line `Fatal: could not open log file: ` followed by the error. -/
theorem main_no_token (env : Env)
    (htoken : List.lookup "SLACK_BOT_TOKEN" env.vars = none ∨
      List.lookup "SLACK_BOT_TOKEN" env.vars = some "") :
    exitStatusOf (main env) = some 1 ∧
    (∀ ev ∈ main env, ev.startsService = false) ∧
    (env.openLogFile = none →
      stderrOf (main env) = "Error: SLACK_BOT_TOKEN environment variable not set\n") ∧
    (∀ err, env.openLogFile = some err →
      stderrOf (main env) = "Fatal: could not open log file: " ++ err ++ "\n") := by
  have hget : env.Getenv "SLACK_BOT_TOKEN" = "" := by
    unfold Env.Getenv
    rcases htoken with h | h <;> rw [h] <;> rfl
  cases hlog : env.openLogFile with
  | some err =>
    refine ⟨?_, ?_, ?_, ?_⟩
    · simp [main, hlog, exitStatusOf]
    · simp [main, hlog, Event.startsService]
    · intro hn; cases hn
    · intro err' he
      cases he
      simp [main, hlog, stderrOf]
  | none =>
    refine ⟨?_, ?_, ?_, ?_⟩
    · simp [main, hlog, hget, exitStatusOf]
    · simp [main, hlog, hget, Event.startsService]
    · intro _
      simp [main, hlog, hget, stderrOf]
    · intro err he; cases he

/-- Witness of C9 amended: a startup with an empty token and an open log
file exits with status 1 and the token message on standard error. -/
theorem main_no_token_witness :
    exitStatusOf (main envEmptyToken) = some 1 ∧
    stderrOf (main envEmptyToken) = "Error: SLACK_BOT_TOKEN environment variable not set\n" :=
  have t := main_no_token envEmptyToken (Or.inr rfl)
  ⟨t.1, t.2.2.1 rfl⟩

/-- C10: two replies of `GetConversationReplies` with the same messages and
no error give the same result of `GetThreadRepliesHandler.Call`, whatever
their `hasMore` and `nextCursor`; two replies of `GetConversations` with the
same channels and no error give the same result of `ListChannelsHandler.Call`,
whatever their `nextCursor`. -/
theorem pagination_outputs_discarded (json : JsonMarshal T) (ctx : T.Context)
    (request : CallToolRequest) {σ₁ σ₂ : Type} (api₁ : SlackAPI T σ₁) (api₂ : SlackAPI T σ₂)
    (s₁ : σ₁) (s₂ : σ₂) :
    (∀ msgs hasMore₁ hasMore₂ nextCursor₁ nextCursor₂,
      (api₁.GetConversationReplies
          { ChannelID := stringArg request "channel",
            Timestamp := stringArg request "timestamp" } s₁).1
        = (msgs, hasMore₁, nextCursor₁, none) →
      (api₂.GetConversationReplies
          { ChannelID := stringArg request "channel",
            Timestamp := stringArg request "timestamp" } s₂).1
        = (msgs, hasMore₂, nextCursor₂, none) →
      (GetThreadRepliesHandler.Call json ⟨api₁⟩ ctx request s₁).1 =
        (GetThreadRepliesHandler.Call json ⟨api₂⟩ ctx request s₂).1) ∧
    (∀ channels nextCursor₁ nextCursor₂,
      (api₁.GetConversations {} s₁).1 = (channels, nextCursor₁, none) →
      (api₂.GetConversations {} s₂).1 = (channels, nextCursor₂, none) →
      (ListChannelsHandler.Call json ⟨api₁⟩ ctx request s₁).1 =
        (ListChannelsHandler.Call json ⟨api₂⟩ ctx request s₂).1) := by
  refine ⟨fun msgs hasMore₁ hasMore₂ nextCursor₁ nextCursor₂ h₁ h₂ => ?_,
    fun channels nextCursor₁ nextCursor₂ h₁ h₂ => ?_⟩
  · simp only [GetThreadRepliesHandler.Call, stringArg] at h₁ h₂ ⊢
    rw [h₁, h₂]
    simp only
    repeat (first | rfl | split)
  · simp only [ListChannelsHandler.Call] at h₁ h₂ ⊢
    rw [h₁, h₂]
    simp only
    repeat (first | rfl | split)

/-- Witness of C10: the test backend announcing a further page and the one
announcing none give the same results. -/
theorem pagination_outputs_discarded_witness :
    (GetThreadRepliesHandler.Call testJson ⟨testAPI none true "next"⟩ () testThread 0).1 =
      (GetThreadRepliesHandler.Call testJson ⟨testAPI none false ""⟩ () testThread 7).1 ∧
    (ListChannelsHandler.Call testJson ⟨testAPI none true "next"⟩ () testThread 0).1 =
      (ListChannelsHandler.Call testJson ⟨testAPI none false ""⟩ () testThread 7).1 :=
  have t := pagination_outputs_discarded testJson () testThread
    (testAPI none true "next") (testAPI none false "") 0 7
  ⟨t.1 ["m1", "m2"] true false "next" "" rfl rfl, t.2 ["c1"] "next" "" rfl rfl⟩

end Theorems

end SlackMcp
